import Mathlib

/-!
Verification development for the YouTube SEO tool's core analysis code
(`content_analyzer.py`, `keyword_researcher.py`, `seo_generator.py`).
Pure Python functions are shallowly embedded as Lean functions; calls into
external libraries (scikit-learn's vectorizer and k-means, NLTK's polarity
analyzer) are modelled as explicit function parameters, since the repository
treats them as opaque collaborators.  Floating point arithmetic is modelled
with rationals; `numpy.mean` over an empty list (a NaN in the original) is
modelled as `Option.none`.
-/

set_option maxHeartbeats 2000000
set_option maxRecDepth 8000

namespace YTSeo

/-! ## Tokenisation and whole-word matching (content_analyzer.py)

`re.findall(r'\b\w+\b', text.lower())` extracts maximal runs of word
characters from the lowercased text; `re.findall(r'\b' + re.escape(kw) +
r'\b', text.lower())` counts non-overlapping whole-word occurrences of the
escaped keyword.  Both are embedded over ASCII word characters
(`[A-Za-z0-9_]`), the fragment exercised by the repository. -/

/-- Model of the regex class `\w` restricted to ASCII: letters, digits, underscore. -/
def isWordChar (c : Char) : Bool := c.isAlphanum || c == '_'

/-- `str.lower()` on the underlying character list. -/
def lowerChars (s : String) : List Char := s.toList.map Char.toLower

/-- Accumulating splitter producing the maximal word-character runs of a string,
mirroring `re.findall(r'\b\w+\b', ...)`. `acc` holds the current run reversed. -/
def wordRunsAux (acc : List Char) : List Char → List (List Char)
  | [] => if acc.isEmpty then [] else [acc.reverse]
  | c :: rest =>
      if isWordChar c then wordRunsAux (c :: acc) rest
      else (if acc.isEmpty then [] else [acc.reverse]) ++ wordRunsAux [] rest

/-- Maximal word-character runs of a character list. -/
def wordRuns (s : List Char) : List (List Char) := wordRunsAux [] s

/-- `re.findall(r'\b\w+\b', text.lower())`: the word tokens of the lowercased text. -/
def tokensOf (text : String) : List (List Char) := wordRuns (lowerChars text)

/-- Whether an optional character is a word character (`none` = outside the string). -/
def wordCharOpt : Option Char → Bool
  | none => false
  | some c => isWordChar c

/-- Regex `\b`: a word boundary lies between two positions iff exactly one side
is a word character. -/
def wordBoundaryB (a b : Option Char) : Bool := wordCharOpt a != wordCharOpt b

/-- Does the pattern `\b kw \b` match at the current position?  `prev` is the
character right before the position, `s` the rest of the text. -/
def matchHere (kw : List Char) (prev : Option Char) (s : List Char) : Bool :=
  kw.isPrefixOf s &&
    (if kw.isEmpty then wordBoundaryB prev s.head?
     else wordBoundaryB prev kw.head? &&
       wordBoundaryB (some (kw.getLastD ' ')) (s.drop kw.length).head?)

/-- Fuelled scanner counting the non-overlapping matches of `\b kw \b`,
advancing by the match length on a hit (by one position on a zero-width hit),
exactly as `re.findall` does. -/
def scanGo (kw : List Char) : Nat → Option Char → List Char → Nat
  | 0, _, _ => 0
  | _ + 1, prev, [] => if matchHere kw prev [] then 1 else 0
  | fuel + 1, prev, c :: rest =>
      if matchHere kw prev (c :: rest) then
        if kw.isEmpty then 1 + scanGo kw fuel (some c) rest
        else 1 + scanGo kw fuel (some (kw.getLastD c)) (rest.drop (kw.length - 1))
      else scanGo kw fuel (some c) rest

/-- `len(re.findall(r'\b' + re.escape(keyword.lower()) + r'\b', text.lower()))`:
the number of case-insensitive whole-word matches of the keyword in the text. -/
def countWholeWord (text keyword : String) : Nat :=
  scanGo (lowerChars keyword) ((lowerChars text).length + 1) none (lowerChars text)

/-- `ContentAnalyzer._calculate_keyword_density`: whole-word match count divided
by the token count, `0` when the text has no tokens. -/
def calculate_keyword_density (text keyword : String) : ℚ :=
  let words := tokensOf text
  if words.isEmpty then 0
  else (countWholeWord text keyword : ℚ) / (words.length : ℚ)

/-- The `frequency` entry of `ContentAnalyzer._analyze_keywords`: the count of
the lowercased target keyword in the unigram frequency table built from
`re.findall(r'\b\w+\b', f"{title} {description}".lower())`. -/
def keyword_frequency (title description target : String) : Nat :=
  (tokensOf (title ++ " " ++ description)).count (lowerChars target)

/-! ## Sentiment aggregation (content_analyzer.py)

`SentimentIntensityAnalyzer.polarity_scores` is an external lexicon-based
analyzer; it is modelled as a function parameter producing a 4-tuple of
rationals. -/

/-- A VADER polarity record: `{"compound", "pos", "neu", "neg"}`. -/
structure Polarity where
  compound : ℚ
  pos : ℚ
  neu : ℚ
  neg : ℚ

/-- `numpy.mean` over a list: undefined (NaN, modelled as `none`) on the empty
list, the arithmetic mean otherwise. -/
def npMean (l : List ℚ) : Option ℚ :=
  if l.isEmpty then none else some (l.sum / (l.length : ℚ))

/-- The four averaged comment polarity fields of `_analyze_sentiment`. -/
structure CommentAvg where
  compound : Option ℚ
  pos : Option ℚ
  neu : Option ℚ
  neg : Option ℚ

/-- The `sentiment_distribution` bucket counts of `_analyze_sentiment`. -/
structure Distribution where
  positive : Nat
  neutral : Nat
  negative : Nat

/-- Result shape of `ContentAnalyzer._analyze_sentiment`. -/
structure SentimentResult where
  content_sentiment : Polarity
  comment_sentiment : CommentAvg
  sentiment_distribution : Distribution

/-- `ContentAnalyzer._analyze_sentiment`, parameterised by the external polarity
analyzer `sia`. -/
def analyze_sentiment (sia : String → Polarity) (title description : String)
    (comments : List String) : SentimentResult :=
  let content := sia (title ++ " " ++ description)
  let cs := comments.map sia
  { content_sentiment := content
    comment_sentiment :=
      { compound := npMean (cs.map (fun s => s.compound))
        pos := npMean (cs.map (fun s => s.pos))
        neu := npMean (cs.map (fun s => s.neu))
        neg := npMean (cs.map (fun s => s.neg)) }
    sentiment_distribution :=
      { positive := (cs.filter (fun s => decide ((0.2 : ℚ) < s.compound))).length
        neutral := (cs.filter (fun s =>
            decide ((-(0.2 : ℚ)) ≤ s.compound ∧ s.compound ≤ (0.2 : ℚ)))).length
        negative := (cs.filter (fun s => decide (s.compound < -(0.2 : ℚ)))).length } }

/-! ## Competition scoring (keyword_researcher.py) -/

/-- Result shape of `KeywordResearcher._calculate_competition_metrics`. -/
structure CompetitionMetrics where
  youtube_competition : String
  web_competition : String
  overall_competition : String
  youtube_score : ℚ
  web_score : ℚ
  overall_score : ℚ

/-- `KeywordResearcher._get_competition_level`: fixed thresholds 80/60/40/20. -/
def get_competition_level (score : ℚ) : String :=
  if 80 ≤ score then "Very High"
  else if 60 ≤ score then "High"
  else if 40 ≤ score then "Medium"
  else if 20 ≤ score then "Low"
  else "Very Low"

/-- `KeywordResearcher._calculate_competition_metrics` on the integer signals it
reads from the platform and web records. -/
def calculate_competition_metrics (total_videos avg_views total_results : Nat) :
    CompetitionMetrics :=
  let youtube_score : ℚ :=
    if 0 < total_videos then
      min (((avg_views : ℚ) * (total_videos : ℚ)) / 1000000) 100
    else 0
  let web_score : ℚ :=
    if 0 < total_results then min ((total_results : ℚ) / 100) 100 else 0
  let overall_score := (youtube_score + web_score) / 2
  { youtube_competition := get_competition_level youtube_score
    web_competition := get_competition_level web_score
    overall_competition := get_competition_level overall_score
    youtube_score := youtube_score
    web_score := web_score
    overall_score := overall_score }

/-! ## SEO scoring, tips, tags and hashtags (seo_generator.py) -/

/-- Python's substring test `pat in s`, on the underlying character lists
(`True` for the empty pattern, as in Python). -/
def containsSubAux (pat : List Char) : List Char → Bool
  | [] => pat.isEmpty
  | c :: rest => pat.isPrefixOf (c :: rest) || containsSubAux pat rest

/-- Python's `pat in s` for strings. -/
def containsSub (s pat : String) : Bool := containsSubAux pat.toList s.toList

/-- The `title_score` accumulation of `SEOGenerator._calculate_seo_score`. -/
def title_points (title : String) : Nat :=
  (if 30 ≤ title.length ∧ title.length ≤ 60 then 15 else 0) +
  (if containsSub title ("#") then 5 else 0) +
  (if containsSub title ("?") then 5 else 0) +
  (if title.toList.any Char.isDigit then 5 else 0)

/-- The `desc_score` accumulation of `SEOGenerator._calculate_seo_score`. -/
def desc_points (description : String) : Nat :=
  (if 200 ≤ description.length then 10 else 0) +
  (if containsSub description ("⏰") then 5 else 0) +
  (if containsSub description ("🔍") then 5 else 0) +
  (if containsSub description ("📚") then 5 else 0) +
  (if containsSub description ("Subscribe") then 5 else 0)

/-- Result shape of `SEOGenerator._calculate_seo_score`. -/
structure SeoScore where
  total_score : Nat
  max_score : Nat
  title_score : Nat
  description_score : Nat
  tags_score : Nat
  hashtags_score : Nat

/-- `SEOGenerator._calculate_seo_score`. -/
def calculate_seo_score (title description : String)
    (tags hashtags : List String) : SeoScore :=
  let title_score := title_points title
  let desc_score := desc_points description
  let tags_score := min (tags.length * 2) 20
  let hashtags_score := min (hashtags.length * 2) 20
  { total_score := title_score + desc_score + tags_score + hashtags_score
    max_score := 100
    title_score := title_score
    description_score := desc_score
    tags_score := tags_score
    hashtags_score := hashtags_score }

/-- `SEOGenerator._generate_optimization_tips`: conditional appends of fixed
remediation strings, in source order (the two title tips form an if/elif). -/
def generate_optimization_tips (title description : String)
    (tags hashtags : List String) : List String :=
  (if title.length < 30 then ["Consider making the title longer (30-60 characters)"]
   else if 60 < title.length then ["Consider making the title shorter (30-60 characters)"]
   else []) ++
  (if description.length < 200 then
    ["Add more content to the description (minimum 200 characters)"] else []) ++
  (if containsSub description ("⏰") = false then
    ["Add timestamps to the description"] else []) ++
  (if containsSub description ("Subscribe") = false then
    ["Add a call-to-action to subscribe"] else []) ++
  (if tags.length < 10 then ["Add more tags (aim for 10-15 tags)"] else []) ++
  (if hashtags.length < 5 then ["Add more hashtags (aim for 5-10 hashtags)"] else [])

/-- Python's `list(dict.fromkeys(l))`: remove duplicates keeping the first
occurrence of each element, preserving order. -/
def dedupKeepFirst : List String → List String
  | [] => []
  | x :: xs => x :: dedupKeepFirst (xs.filter (fun y => !(y == x)))
termination_by l => l.length
decreasing_by exact Nat.lt_succ_of_le (List.length_filter_le _ _)

/-- The fixed base tag patterns of `SEOGenerator._generate_tags`. -/
def baseTags (keyword : String) : List String :=
  [keyword, keyword.replace (" ") (""), "how to " ++ keyword,
   keyword ++ " tutorial", keyword ++ " guide", "learn " ++ keyword,
   keyword ++ " tips", keyword ++ " tricks"]

/-- `SEOGenerator._generate_tags`, with the trending tags (an external API
result) and the video record's tag list as parameters.  The source extends only
when those lists are non-empty, which coincides with unconditional extension. -/
def generate_tags (keyword : String) (trending_tags video_tags : List String) :
    List String :=
  (dedupKeepFirst (baseTags keyword ++ trending_tags.take 10 ++ video_tags.take 5)).take 15

/-- The fixed base hashtag patterns of `SEOGenerator._generate_hashtags`. -/
def baseHashtags (keyword : String) : List String :=
  ["#" ++ keyword.replace (" ") (""),
   "#" ++ keyword.replace (" ") ("") ++ "Tutorial",
   "#" ++ keyword.replace (" ") ("") ++ "Tips",
   "#" ++ keyword.replace (" ") ("") ++ "Guide",
   "#Learn" ++ keyword.replace (" ") ("")]

/-- `SEOGenerator._generate_hashtags`. -/
def generate_hashtags (keyword : String) (trending_hashtags : List String) :
    List String :=
  (dedupKeepFirst (baseHashtags keyword ++ trending_hashtags.take 5)).take 10

/-! ## Content clustering (content_analyzer.py)

`TfidfVectorizer.fit_transform` and `KMeans.fit_predict` are external
scikit-learn calls; they are modelled as function parameters that either
return a value or fail (a Python exception, caught by the source's
`try/except`).  `_get_cluster_keywords` itself is repository code and is
embedded concretely, with `numpy.argsort` modelled as the stable ascending
sort by value (ties by index). -/

/-- The vectorizer's output: the TF-IDF matrix (one row per document) and the
vocabulary `get_feature_names_out()` (one name per column). -/
structure Tfidf where
  matrix : List (List ℚ)
  names : List String

/-- Result shape of `ContentAnalyzer._cluster_content`; `error = none` models a
dict without an `"error"` key. -/
structure ClusterResult where
  error : Option String
  clusters : List Nat
  cluster_keywords : List (List String)
deriving DecidableEq

/-- Python's `s.strip()` on the underlying character list: drop leading and
trailing whitespace. -/
def stripChars (s : String) : List Char :=
  ((s.toList.dropWhile Char.isWhitespace).reverse.dropWhile Char.isWhitespace).reverse

/-- The corpus assembled by `_cluster_content`:
`[title, description] + comments` with entries that are blank after stripping
removed (`if t.strip()`). -/
def filteredTexts (title description : String) (comments : List String) :
    List String :=
  ([title, description] ++ comments).filter (fun t => !(stripChars t).isEmpty)

/-- The comparison key of `numpy.argsort` on `xs`: ascending by value, ties by
ascending position. -/
def argLE (xs : List ℚ) (i j : Nat) : Prop :=
  xs.getD i 0 < xs.getD j 0 ∨ (xs.getD i 0 = xs.getD j 0 ∧ i ≤ j)

instance argLE_decidable (xs : List ℚ) : DecidableRel (argLE xs) := fun i j => by
  unfold argLE; infer_instance

instance argLE_total (xs : List ℚ) : IsTotal Nat (argLE xs) where
  total i j := by
    rcases lt_trichotomy (xs.getD i 0) (xs.getD j 0) with h | h | h
    · exact Or.inl (Or.inl h)
    · rcases Nat.le_total i j with hij | hij
      · exact Or.inl (Or.inr ⟨h, hij⟩)
      · exact Or.inr (Or.inr ⟨h.symm, hij⟩)
    · exact Or.inr (Or.inl h)

instance argLE_trans (xs : List ℚ) : IsTrans Nat (argLE xs) where
  trans a b c hab hbc := by
    rcases hab with h1 | ⟨h1, h1'⟩ <;> rcases hbc with h2 | ⟨h2, h2'⟩
    · exact Or.inl (h1.trans h2)
    · exact Or.inl (by rw [← h2]; exact h1)
    · exact Or.inl (by rw [h1]; exact h2)
    · exact Or.inr ⟨h1.trans h2, h1'.trans h2'⟩

/-- `numpy.argsort(xs)`: the positions `0, ..., |xs|-1` sorted ascending by
value (stable, so ties stay in ascending position order). -/
def npArgsort (xs : List ℚ) : List Nat :=
  List.insertionSort (argLE xs) (List.range xs.length)

/-- `xs.argsort()[-5:][::-1]`: the last five entries of the argsort, reversed. -/
def topIndices (xs : List ℚ) : List Nat :=
  ((npArgsort xs).drop ((npArgsort xs).length - 5)).reverse

/-- The column-wise mean of the rows of `matrix` whose label equals `i`
(`tfidf_matrix[clusters == i].mean(axis=0)`), over `m` columns. -/
def clusterMeanScores (matrix : List (List ℚ)) (labels : List Nat) (m i : Nat) :
    List ℚ :=
  let rows := ((matrix.zip labels).filter (fun p => p.2 == i)).map Prod.fst
  (List.range m).map (fun j =>
    ((rows.map (fun r => r.getD j 0)).sum) / (rows.length : ℚ))

/-- `ContentAnalyzer._get_cluster_keywords`: for each cluster id up to the
maximum label, the names of the top (at most five) columns of the cluster's
mean TF-IDF row, best first. -/
def get_cluster_keywords (matrix : List (List ℚ)) (labels : List Nat)
    (names : List String) : List (List String) :=
  (List.range (labels.foldr max 0 + 1)).map (fun i =>
    (topIndices (clusterMeanScores matrix labels names.length i)).map
      (fun idx => names.getD idx ""))

/-- `ContentAnalyzer._cluster_content`, parameterised by the external
vectorizer and k-means calls.  Any failure of either call is caught and
surfaced as an error-carrying empty result, as in the source's `try/except`. -/
def cluster_content (vectorize : List String → Except String Tfidf)
    (kmeans : Nat → List (List ℚ) → Except String (List Nat))
    (title description : String) (comments : List String) : ClusterResult :=
  let texts := filteredTexts title description comments
  if texts.isEmpty then { error := none, clusters := [], cluster_keywords := [] }
  else
    match vectorize texts with
    | Except.error e => { error := some e, clusters := [], cluster_keywords := [] }
    | Except.ok tf =>
        match kmeans (min 5 texts.length) tf.matrix with
        | Except.error e =>
            { error := some e, clusters := [], cluster_keywords := [] }
        | Except.ok clusters =>
            { error := none, clusters := clusters
              cluster_keywords := get_cluster_keywords tf.matrix clusters tf.names }

/-- The relation in which the code's cluster summaries are emitted: strictly
descending by score, ties broken by descending position. -/
def argStrictGT (xs : List ℚ) (a b : Nat) : Prop :=
  xs.getD b 0 < xs.getD a 0 ∨ (xs.getD a 0 = xs.getD b 0 ∧ b < a)

/-- `is` is the top-(at most 5) selection of positions of `xs`: maximal length,
no duplicates, in-range, emitted strictly descending by (value, position), and
every excluded position loses against every included one. -/
def IsTopSelection (xs : List ℚ) (is : List Nat) : Prop :=
  is.length = min 5 xs.length ∧ is.Nodup ∧ (∀ i ∈ is, i < xs.length) ∧
  is.Pairwise (argStrictGT xs) ∧
  (∀ j, j < xs.length → j ∉ is → ∀ i ∈ is, argStrictGT xs i j)

/-! ## Concrete modelled collaborator behaviours used in witnesses and
counterexamples -/

/-- A trivial polarity analyzer (the analyzer's output is irrelevant for the
zero-comment aggregation bug). -/
def siaZero : String → Polarity := fun _ => { compound := 0, pos := 0, neu := 0, neg := 0 }

/-- A vectorizer that fails, as scikit-learn does on an all-stop-word corpus. -/
def vErrW : List String → Except String Tfidf := fun _ => Except.error ("empty vocabulary")

/-- A vectorizer returning a one-document, one-term matrix. -/
def vOkW : List String → Except String Tfidf :=
  fun _ => Except.ok { matrix := [[1]], names := ["aa"] }

/-- A k-means call that fails. -/
def kmErrW : Nat → List (List ℚ) → Except String (List Nat) :=
  fun _ _ => Except.error ("numerical error")

/-- A two-document, two-term vectorizer output. -/
def tfW : Tfidf := { matrix := [[1, 0], [0, 1]], names := ["aa", "bb"] }

/-- A vectorizer returning `tfW`. -/
def vW : List String → Except String Tfidf := fun _ => Except.ok tfW

/-- A k-means call assigning the two documents to clusters 0 and 1. -/
def kW : Nat → List (List ℚ) → Except String (List Nat) := fun _ _ => Except.ok [0, 1]

/-- A one-document vectorizer output with three exactly tied term weights, as
TF-IDF produces for a document whose terms all occur once. -/
def tfTie : Tfidf := { matrix := [[1, 1, 1]], names := ["aa", "aa bb", "bb"] }

/-- A vectorizer returning `tfTie`. -/
def vTie : List String → Except String Tfidf := fun _ => Except.ok tfTie

/-- A k-means call assigning the single document to cluster 0. -/
def kTie : Nat → List (List ℚ) → Except String (List Nat) := fun _ _ => Except.ok [0]

/-- A title meeting every title scoring condition (length 35, `?`, `#`, digit). -/
def tipsTitleEx : String := "How to win? Top #1 chess strategies"

/-- A description meeting every description scoring condition except the
magnifier glyph: over 200 characters, with the clock glyph, the books glyph and
the Subscribe call-to-action, but no magnifier glyph. -/
def tipsDescEx : String := "Subscribe for more chess content. ⏰ Timestamps: 00:00 Intro 02:00 Openings 05:00 Tactics 08:00 Endgames. 📚 Resources and links below. This description is intentionally padded to exceed two hundred characters in total."

/-- Ten tags, enough for the full tag score and for the tag-count tip threshold. -/
def tipsTagsEx : List String := ["a", "b", "c", "d", "e", "f", "g", "h", "i", "j"]

/-- Five hashtags, enough for the hashtag-count tip threshold. -/
def tipsHashtagsEx : List String := ["#a", "#b", "#c", "#d", "#e"]

/-! ## Helper lemmas -/

theorem isEmpty_false_of_ne_nil {α : Type _} {l : List α} (h : l ≠ []) :
    l.isEmpty = false := by
  cases l with
  | nil => exact absurd rfl h
  | cons x xs => rfl

theorem foldr_max_le {l : List Nat} {b : Nat} (h : ∀ a ∈ l, a ≤ b) :
    l.foldr max 0 ≤ b := by
  induction l with
  | nil => exact Nat.zero_le b
  | cons x xs ih =>
      simp only [List.foldr_cons]
      exact max_le (h x (List.mem_cons_self x xs))
        (ih fun a ha => h a (List.mem_cons_of_mem x ha))

theorem le_foldr_max {l : List Nat} {a : Nat} (h : a ∈ l) : a ≤ l.foldr max 0 := by
  induction l with
  | nil => cases h
  | cons x xs ih =>
      rcases List.mem_cons.mp h with rfl | h'
      · exact le_max_left _ _
      · exact le_trans (ih h') (le_max_right _ _)

theorem foldr_max_succ {labels : List Nat} {k : Nat} (hk1 : 1 ≤ k)
    (hmem : ∀ c ∈ labels, c < k) (hsurj : ∀ c, c < k → c ∈ labels) :
    labels.foldr max 0 + 1 = k := by
  have h1 : labels.foldr max 0 ≤ k - 1 :=
    foldr_max_le (fun a ha => by have := hmem a ha; omega)
  have h2 : k - 1 ≤ labels.foldr max 0 := le_foldr_max (hsurj (k - 1) (by omega))
  omega

theorem wordRunsAux_wordChars (rest : List Char) :
    ∀ acc, (∀ c ∈ acc, isWordChar c = true) →
      ∀ w ∈ wordRunsAux acc rest, w ≠ [] ∧ ∀ c ∈ w, isWordChar c = true := by
  induction rest with
  | nil =>
      intro acc hacc w hw
      by_cases h : acc.isEmpty
      · simp [wordRunsAux, h] at hw
      · simp [wordRunsAux, h] at hw
        subst hw
        refine ⟨by simpa using fun hnil => h (by simp [hnil]), ?_⟩
        intro c hc
        exact hacc c (List.mem_reverse.mp hc)
  | cons c rest ih =>
      intro acc hacc w hw
      rw [wordRunsAux] at hw
      by_cases hc : isWordChar c = true
      · rw [if_pos hc] at hw
        refine ih (c :: acc) ?_ w hw
        intro d hd
        rcases List.mem_cons.mp hd with rfl | hd'
        · exact hc
        · exact hacc d hd'
      · rw [if_neg hc] at hw
        rcases List.mem_append.mp hw with hl | hr
        · by_cases h : acc.isEmpty
          · simp [h] at hl
          · simp [h] at hl
            subst hl
            refine ⟨by simpa using fun hnil => h (by simp [hnil]), ?_⟩
            intro d hd
            exact hacc d (List.mem_reverse.mp hd)
        · exact ih [] (by simp) w hr

theorem tokensOf_wordChars (s : String) :
    ∀ w ∈ tokensOf s, w ≠ [] ∧ ∀ c ∈ w, isWordChar c = true :=
  wordRunsAux_wordChars (lowerChars s) [] (by simp)

theorem bucket_counts (cs : List Polarity) :
    (cs.filter (fun s => decide ((0.2 : ℚ) < s.compound))).length +
    (cs.filter (fun s =>
      decide ((-(0.2 : ℚ)) ≤ s.compound ∧ s.compound ≤ (0.2 : ℚ)))).length +
    (cs.filter (fun s => decide (s.compound < -(0.2 : ℚ)))).length = cs.length := by
  induction cs with
  | nil => rfl
  | cons s tl ih =>
      by_cases h1 : (0.2 : ℚ) < s.compound
      · have h2 : ¬ ((-(0.2 : ℚ)) ≤ s.compound ∧ s.compound ≤ (0.2 : ℚ)) := by
          rintro ⟨-, h⟩; linarith
        have h3 : ¬ (s.compound < -(0.2 : ℚ)) := by linarith
        simp only [List.filter_cons, decide_eq_true_eq]
        rw [if_pos h1, if_neg h2, if_neg h3]
        simp only [List.length_cons]
        omega
      · by_cases h3 : s.compound < -(0.2 : ℚ)
        · have h2 : ¬ ((-(0.2 : ℚ)) ≤ s.compound ∧ s.compound ≤ (0.2 : ℚ)) := by
            rintro ⟨h, -⟩; linarith
          simp only [List.filter_cons, decide_eq_true_eq]
          rw [if_neg h1, if_neg h2, if_pos h3]
          simp only [List.length_cons]
          omega
        · have h2 : (-(0.2 : ℚ)) ≤ s.compound ∧ s.compound ≤ (0.2 : ℚ) := by
            constructor <;> linarith
          simp only [List.filter_cons, decide_eq_true_eq]
          rw [if_neg h1, if_pos h2, if_neg h3]
          simp only [List.length_cons]
          omega

theorem title_points_le (title : String) : title_points title ≤ 30 := by
  unfold title_points
  split_ifs <;> omega

theorem desc_points_le (description : String) : desc_points description ≤ 30 := by
  unfold desc_points
  split_ifs <;> omega

theorem dedupKeepFirst_sublist (l : List String) : (dedupKeepFirst l).Sublist l := by
  induction l using dedupKeepFirst.induct with
  | case1 => simp [dedupKeepFirst]
  | case2 x xs ih =>
      rw [dedupKeepFirst]
      exact List.Sublist.cons₂ x (ih.trans (List.filter_sublist xs))

theorem dedupKeepFirst_nodup (l : List String) : (dedupKeepFirst l).Nodup := by
  induction l using dedupKeepFirst.induct with
  | case1 => simp [dedupKeepFirst]
  | case2 x xs ih =>
      rw [dedupKeepFirst]
      refine List.nodup_cons.mpr ⟨?_, ih⟩
      intro hx
      have hmem := (dedupKeepFirst_sublist _).subset hx
      simp at hmem

theorem clusterMeanScores_length (matrix : List (List ℚ)) (labels : List Nat)
    (m i : Nat) : (clusterMeanScores matrix labels m i).length = m := by
  simp [clusterMeanScores]

theorem topIndices_isTop (xs : List ℚ) : IsTopSelection xs (topIndices xs) := by
  have hperm : (npArgsort xs).Perm (List.range xs.length) := List.perm_insertionSort _ _
  have hpa : (npArgsort xs).Pairwise (argLE xs) := List.sorted_insertionSort _ _
  have hlen : (npArgsort xs).length = xs.length := by simpa using hperm.length_eq
  have hnodup : (npArgsort xs).Nodup := hperm.nodup_iff.mpr (List.nodup_range _)
  have hmem : ∀ i ∈ npArgsort xs, i < xs.length := by
    intro i hi
    have := hperm.mem_iff.mp hi
    simpa using this
  have hdropsub :
      List.Sublist ((npArgsort xs).drop ((npArgsort xs).length - 5)) (npArgsort xs) :=
    List.drop_sublist _ _
  have htopmem : ∀ x : Nat, x ∈ topIndices xs ↔
      x ∈ (npArgsort xs).drop ((npArgsort xs).length - 5) := by
    intro x
    simp [topIndices]
  refine ⟨?_, ?_, ?_, ?_, ?_⟩
  · simp only [topIndices, List.length_reverse, List.length_drop]
    omega
  · simp only [topIndices]
    exact List.nodup_reverse.mpr (List.Nodup.sublist hdropsub hnodup)
  · intro i hi
    exact hmem i (hdropsub.subset ((htopmem i).mp hi))
  · have hpwd := List.Pairwise.sublist hdropsub hpa
    have hnd := List.Nodup.sublist hdropsub hnodup
    have hcomb := hpwd.and hnd
    simp only [topIndices]
    rw [List.pairwise_reverse]
    refine hcomb.imp ?_
    rintro a b ⟨hle, hne⟩
    rcases hle with h | ⟨heq, hleab⟩
    · exact Or.inl h
    · exact Or.inr ⟨heq.symm, lt_of_le_of_ne hleab hne⟩
  · intro j hj hjnot i hi
    have hjmem : j ∈ npArgsort xs := hperm.mem_iff.mpr (List.mem_range.mpr hj)
    have hsplit := List.take_append_drop ((npArgsort xs).length - 5) (npArgsort xs)
    have hidrop : i ∈ (npArgsort xs).drop ((npArgsort xs).length - 5) :=
      (htopmem i).mp hi
    have hjtake : j ∈ (npArgsort xs).take ((npArgsort xs).length - 5) := by
      have hj2 : j ∈ (npArgsort xs).take ((npArgsort xs).length - 5) ++
          (npArgsort xs).drop ((npArgsort xs).length - 5) := by
        rw [hsplit]; exact hjmem
      rcases List.mem_append.mp hj2 with h | h
      · exact h
      · exact absurd ((htopmem j).mpr h) hjnot
    have hpa' : ((npArgsort xs).take ((npArgsort xs).length - 5) ++
        (npArgsort xs).drop ((npArgsort xs).length - 5)).Pairwise (argLE xs) := by
      rw [hsplit]; exact hpa
    have hnd' : ((npArgsort xs).take ((npArgsort xs).length - 5) ++
        (npArgsort xs).drop ((npArgsort xs).length - 5)).Pairwise (fun a b => a ≠ b) := by
      rw [hsplit]; exact hnodup
    have hle : argLE xs j i := (List.pairwise_append.mp hpa').2.2 j hjtake i hidrop
    have hne : j ≠ i := (List.pairwise_append.mp hnd').2.2 j hjtake i hidrop
    rcases hle with h | ⟨heq, hji⟩
    · exact Or.inl h
    · exact Or.inr ⟨heq.symm, lt_of_le_of_ne hji hne⟩

theorem cluster_content_ok
    (vectorize : List String → Except String Tfidf)
    (kmeans : Nat → List (List ℚ) → Except String (List Nat))
    (title description : String) (comments : List String)
    (tf : Tfidf) (labels : List Nat)
    (hne : filteredTexts title description comments ≠ [])
    (hv : vectorize (filteredTexts title description comments) = Except.ok tf)
    (hk : kmeans (min 5 (filteredTexts title description comments).length) tf.matrix =
      Except.ok labels) :
    cluster_content vectorize kmeans title description comments =
      { error := none, clusters := labels,
        cluster_keywords := get_cluster_keywords tf.matrix labels tf.names } := by
  simp [cluster_content, isEmpty_false_of_ne_nil hne, hv, hk]

theorem get_cluster_keywords_length (matrix : List (List ℚ)) (labels : List Nat)
    (names : List String) (k : Nat) (hk1 : 1 ≤ k)
    (hmem : ∀ c ∈ labels, c < k) (hsurj : ∀ c, c < k → c ∈ labels) :
    (get_cluster_keywords matrix labels names).length = k := by
  simp only [get_cluster_keywords, List.length_map, List.length_range]
  exact foldr_max_succ hk1 hmem hsurj

theorem get_cluster_keywords_getD (matrix : List (List ℚ)) (labels : List Nat)
    (names : List String) (i : Nat) (hi : i < labels.foldr max 0 + 1) :
    (get_cluster_keywords matrix labels names).getD i [] =
      (topIndices (clusterMeanScores matrix labels names.length i)).map
        (fun idx => names.getD idx "") := by
  unfold get_cluster_keywords
  rw [List.getD_eq_getElem?_getD, List.getElem?_map, List.getElem?_range hi]
  rfl

/-! ## Claim theorems -/

/-- C1 counterexample: with three exactly tied mean TF-IDF weights the code
(`avg_scores.argsort()[-5:][::-1]`) emits the tied terms in descending
vocabulary-index order (`["bb", "aa bb", "aa"]`), while the claim's tie-break
by vocabulary index order would give `["aa", "aa bb", "bb"]`. -/
theorem claim1_counterexample :
    (cluster_content vTie kTie ("aa bb") ("") []).cluster_keywords =
      [["bb", "aa bb", "aa"]] ∧
    [["bb", "aa bb", "aa"]] ≠ [["aa", "aa bb", "bb"]] := by
  constructor
  · have hr := cluster_content_ok vTie kTie ("aa bb") ("") [] tfTie [0]
      (by decide) rfl rfl
    rw [hr]
    have hms : clusterMeanScores tfTie.matrix [0] tfTie.names.length 0 =
        [(1 : ℚ), 1, 1] := by
      norm_num [clusterMeanScores, tfTie]
      decide
    show get_cluster_keywords tfTie.matrix [0] tfTie.names = _
    simp only [get_cluster_keywords]
    rw [show List.range ([0].foldr max 0 + 1) = [0] from rfl]
    simp only [List.map_cons, List.map_nil, hms]
    decide
  · decide

/-- C1 (amended): for every corpus that is non-empty after trimming, whenever
vectorization succeeds and k-means succeeds returning one label in `[0, k)` per
document with every cluster id used (`k = min(5, n)`), the clustering operation
produces exactly `n` cluster assignments, each in `[0, k)`, and exactly `k`
cluster summaries, where each summary lists the top `min(5, vocabulary size)`
terms by mean TF-IDF weight within the cluster in descending order, ties broken
by DESCENDING vocabulary index order. -/
theorem claim1_clustering_amended
    (vectorize : List String → Except String Tfidf)
    (kmeans : Nat → List (List ℚ) → Except String (List Nat))
    (title description : String) (comments : List String)
    (tf : Tfidf) (labels : List Nat)
    (hne : filteredTexts title description comments ≠ [])
    (hv : vectorize (filteredTexts title description comments) = Except.ok tf)
    (hk : kmeans (min 5 (filteredTexts title description comments).length) tf.matrix =
      Except.ok labels)
    (hlen : labels.length = (filteredTexts title description comments).length)
    (hmem : ∀ c ∈ labels, c < min 5 (filteredTexts title description comments).length)
    (hsurj : ∀ c, c < min 5 (filteredTexts title description comments).length →
      c ∈ labels) :
    (cluster_content vectorize kmeans title description comments).error = none ∧
    (cluster_content vectorize kmeans title description comments).clusters.length =
      (filteredTexts title description comments).length ∧
    (∀ c ∈ (cluster_content vectorize kmeans title description comments).clusters,
      c < min 5 (filteredTexts title description comments).length) ∧
    (cluster_content vectorize kmeans title description comments).cluster_keywords.length =
      min 5 (filteredTexts title description comments).length ∧
    (∀ i, i < min 5 (filteredTexts title description comments).length →
      (cluster_content vectorize kmeans title description
            comments).cluster_keywords.getD i [] =
        (topIndices (clusterMeanScores tf.matrix labels tf.names.length i)).map
          (fun idx => tf.names.getD idx "") ∧
      (clusterMeanScores tf.matrix labels tf.names.length i).length = tf.names.length ∧
      IsTopSelection (clusterMeanScores tf.matrix labels tf.names.length i)
        (topIndices (clusterMeanScores tf.matrix labels tf.names.length i))) := by
  have hk1 : 1 ≤ min 5 (filteredTexts title description comments).length := by
    have := List.length_pos.mpr hne
    omega
  have hr := cluster_content_ok vectorize kmeans title description comments tf labels
    hne hv hk
  rw [hr]
  refine ⟨rfl, hlen, hmem, get_cluster_keywords_length _ _ _ _ hk1 hmem hsurj, ?_⟩
  intro i hi
  have hmax : labels.foldr max 0 + 1 =
      min 5 (filteredTexts title description comments).length :=
    foldr_max_succ hk1 hmem hsurj
  exact ⟨get_cluster_keywords_getD _ _ _ i (by omega),
    clusterMeanScores_length _ _ _ _, topIndices_isTop _⟩

/-- C1 witness: the amended theorem applied to a concrete two-document corpus
with a concrete vectorizer output and k-means labelling. -/
theorem claim1_witness :
    (cluster_content vW kW ("t1") ("t2") []).error = none ∧
    (cluster_content vW kW ("t1") ("t2") []).clusters.length = 2 ∧
    (cluster_content vW kW ("t1") ("t2") []).cluster_keywords.length = 2 := by
  have h := claim1_clustering_amended vW kW ("t1") ("t2") [] tfW [0, 1]
    (by decide) rfl rfl (by decide) (by decide) (by decide)
  exact ⟨h.1, h.2.1.trans (by decide), h.2.2.2.1.trans (by decide)⟩

/-- C2: the platform competition score equals
`min(avg_views * total_videos / 1_000_000, 100)`, the web score equals
`min(total_results / 100, 100)`, the overall score is their unweighted mean;
each score is capped at 100, and on all-zero input all three scores are 0 with
level "Very Low". -/
theorem claim2_competition_formulas (total_videos avg_views total_results : Nat) :
    (calculate_competition_metrics total_videos avg_views total_results).youtube_score =
      min (((avg_views : ℚ) * (total_videos : ℚ)) / 1000000) 100 ∧
    (calculate_competition_metrics total_videos avg_views total_results).web_score =
      min ((total_results : ℚ) / 100) 100 ∧
    (calculate_competition_metrics total_videos avg_views total_results).overall_score =
      ((calculate_competition_metrics total_videos avg_views total_results).youtube_score +
        (calculate_competition_metrics total_videos avg_views total_results).web_score) / 2 ∧
    (calculate_competition_metrics total_videos avg_views total_results).youtube_score ≤ 100 ∧
    (calculate_competition_metrics total_videos avg_views total_results).web_score ≤ 100 ∧
    (calculate_competition_metrics total_videos avg_views total_results).overall_score ≤ 100 ∧
    (total_videos = 0 → total_results = 0 →
      (calculate_competition_metrics total_videos avg_views total_results).youtube_score = 0 ∧
      (calculate_competition_metrics total_videos avg_views total_results).web_score = 0 ∧
      (calculate_competition_metrics total_videos avg_views total_results).overall_score = 0 ∧
      (calculate_competition_metrics total_videos avg_views
        total_results).youtube_competition = "Very Low" ∧
      (calculate_competition_metrics total_videos avg_views
        total_results).web_competition = "Very Low" ∧
      (calculate_competition_metrics total_videos avg_views
        total_results).overall_competition = "Very Low") := by
  have hy : (calculate_competition_metrics total_videos avg_views total_results).youtube_score =
      min (((avg_views : ℚ) * (total_videos : ℚ)) / 1000000) 100 := by
    rcases Nat.eq_zero_or_pos total_videos with hz | hp
    · subst hz
      simp [calculate_competition_metrics]
    · simp [calculate_competition_metrics, hp]
  have hw : (calculate_competition_metrics total_videos avg_views total_results).web_score =
      min ((total_results : ℚ) / 100) 100 := by
    rcases Nat.eq_zero_or_pos total_results with hz | hp
    · subst hz
      simp [calculate_competition_metrics]
    · simp [calculate_competition_metrics, hp]
  have hycap : (calculate_competition_metrics total_videos avg_views
      total_results).youtube_score ≤ 100 := by
    rw [hy]; exact min_le_right _ _
  have hwcap : (calculate_competition_metrics total_videos avg_views
      total_results).web_score ≤ 100 := by
    rw [hw]; exact min_le_right _ _
  have hynn : 0 ≤ (calculate_competition_metrics total_videos avg_views
      total_results).youtube_score := by
    rw [hy]
    refine le_min (by positivity) (by norm_num)
  have hwnn : 0 ≤ (calculate_competition_metrics total_videos avg_views
      total_results).web_score := by
    rw [hw]
    refine le_min (by positivity) (by norm_num)
  have ho : (calculate_competition_metrics total_videos avg_views total_results).overall_score =
      ((calculate_competition_metrics total_videos avg_views total_results).youtube_score +
        (calculate_competition_metrics total_videos avg_views total_results).web_score) / 2 := by
    simp [calculate_competition_metrics]
  refine ⟨hy, hw, ho, hycap, hwcap, by rw [ho]; linarith, ?_⟩
  intro hv0 hr0
  have hy0 : (calculate_competition_metrics total_videos avg_views
      total_results).youtube_score = 0 := by
    rw [hy, hv0]
    norm_num
  have hw0 : (calculate_competition_metrics total_videos avg_views
      total_results).web_score = 0 := by
    rw [hw, hr0]
    norm_num
  have ho0 : (calculate_competition_metrics total_videos avg_views
      total_results).overall_score = 0 := by
    rw [ho, hy0, hw0]
    norm_num
  have hlevel : get_competition_level 0 = "Very Low" := by
    norm_num [get_competition_level]
  have hyc : (calculate_competition_metrics total_videos avg_views
      total_results).youtube_competition =
      get_competition_level ((calculate_competition_metrics total_videos avg_views
        total_results).youtube_score) := rfl
  have hwc : (calculate_competition_metrics total_videos avg_views
      total_results).web_competition =
      get_competition_level ((calculate_competition_metrics total_videos avg_views
        total_results).web_score) := rfl
  have hoc : (calculate_competition_metrics total_videos avg_views
      total_results).overall_competition =
      get_competition_level ((calculate_competition_metrics total_videos avg_views
        total_results).overall_score) := rfl
  refine ⟨hy0, hw0, ho0, ?_, ?_, ?_⟩
  · rw [hyc, hy0, hlevel]
  · rw [hwc, hw0, hlevel]
  · rw [hoc, ho0, hlevel]

/-- C2 witness: the formulas theorem applied at the all-zero input, where
scores are 0 and the overall level is "Very Low". -/
theorem claim2_witness :
    (calculate_competition_metrics 0 5 0).youtube_score = 0 ∧
    (calculate_competition_metrics 0 5 0).overall_score = 0 ∧
    (calculate_competition_metrics 0 5 0).overall_competition = "Very Low" := by
  have h := claim2_competition_formulas 0 5 0
  exact ⟨(h.2.2.2.2.2.2 rfl rfl).1, (h.2.2.2.2.2.2 rfl rfl).2.2.1,
    (h.2.2.2.2.2.2 rfl rfl).2.2.2.2.2⟩

/-- C3: the clustering operation is total; a corpus that is empty after
trimming yields exactly `{clusters: [], cluster_keywords: []}` with no error
field, and any vectorization or clustering failure yields the error string
together with empty clusters and cluster_keywords. -/
theorem claim3_cluster_error_policy
    (vectorize : List String → Except String Tfidf)
    (kmeans : Nat → List (List ℚ) → Except String (List Nat))
    (title description : String) (comments : List String) :
    (filteredTexts title description comments = [] →
      cluster_content vectorize kmeans title description comments =
        { error := none, clusters := [], cluster_keywords := [] }) ∧
    (filteredTexts title description comments ≠ [] →
      ∀ e, vectorize (filteredTexts title description comments) = Except.error e →
        cluster_content vectorize kmeans title description comments =
          { error := some e, clusters := [], cluster_keywords := [] }) ∧
    (filteredTexts title description comments ≠ [] →
      ∀ tf e, vectorize (filteredTexts title description comments) = Except.ok tf →
        kmeans (min 5 (filteredTexts title description comments).length) tf.matrix =
          Except.error e →
        cluster_content vectorize kmeans title description comments =
          { error := some e, clusters := [], cluster_keywords := [] }) := by
  refine ⟨fun h => ?_, fun hne e hv => ?_, fun hne tf e hv hk => ?_⟩
  · simp [cluster_content, h]
  · simp [cluster_content, isEmpty_false_of_ne_nil hne, hv]
  · simp [cluster_content, isEmpty_false_of_ne_nil hne, hv, hk]

/-- C3 witness: the error-policy theorem applied to a failing vectorizer, to an
all-blank corpus, and to a failing k-means call. -/
theorem claim3_witness :
    cluster_content vErrW kmErrW ("a") ("") [] =
      { error := some ("empty vocabulary"), clusters := [], cluster_keywords := [] } ∧
    cluster_content vOkW kmErrW ("") ("") [] =
      { error := none, clusters := [], cluster_keywords := [] } ∧
    cluster_content vOkW kmErrW ("a") ("") [] =
      { error := some ("numerical error"), clusters := [], cluster_keywords := [] } := by
  refine ⟨?_, ?_, ?_⟩
  · exact (claim3_cluster_error_policy vErrW kmErrW ("a") ("") []).2.1 (by decide)
      ("empty vocabulary") rfl
  · exact (claim3_cluster_error_policy vOkW kmErrW ("") ("") []).1 (by decide)
  · exact (claim3_cluster_error_policy vOkW kmErrW ("a") ("") []).2.2 (by decide)
      { matrix := [[1]], names := ["aa"] } ("numerical error") rfl rfl

/-- C4: every comment lands in exactly one compound-score bucket (positive
`> 0.2`, neutral `[-0.2, 0.2]`, negative `< -0.2`), so for every polarity
analyzer the three bucket counts sum to the number of comments. -/
theorem claim4_sentiment_buckets (sia : String → Polarity)
    (title description : String) (comments : List String) :
    (analyze_sentiment sia title description comments).sentiment_distribution.positive +
    (analyze_sentiment sia title description comments).sentiment_distribution.neutral +
    (analyze_sentiment sia title description comments).sentiment_distribution.negative =
      comments.length := by
  have h := bucket_counts (comments.map sia)
  simpa [analyze_sentiment] using h

/-- C5: in the code, a zero-comment corpus makes all four averaged comment
sentiment fields `numpy.mean([])`, i.e. NaN (modelled as `none`) — the
aggregate is NOT a defined default value as the claim mandates, confirming the
divergence the spec flags. -/
theorem claim5_empty_comments_nan :
    (analyze_sentiment siaZero ("Title") ("Desc") []).comment_sentiment.compound = none ∧
    (analyze_sentiment siaZero ("Title") ("Desc") []).comment_sentiment.pos = none ∧
    (analyze_sentiment siaZero ("Title") ("Desc") []).comment_sentiment.neu = none ∧
    (analyze_sentiment siaZero ("Title") ("Desc") []).comment_sentiment.neg = none :=
  ⟨rfl, rfl, rfl, rfl⟩

/-- C6: keyword density is the whole-word match count over the token count,
`0` when the body has no tokens; on keyword "chess" and text
"chess chess openings chess tactics" the frequency is 3 and the density 3/5. -/
theorem claim6_keyword_density :
    (∀ text keyword : String,
      calculate_keyword_density text keyword =
        if (tokensOf text).isEmpty then 0
        else (countWholeWord text keyword : ℚ) / ((tokensOf text).length : ℚ)) ∧
    countWholeWord ("chess chess openings chess tactics") ("chess") = 3 ∧
    (tokensOf ("chess chess openings chess tactics")).length = 5 ∧
    calculate_keyword_density ("chess chess openings chess tactics") ("chess") =
      3 / 5 := by
  refine ⟨fun text keyword => rfl, by decide, by decide, ?_⟩
  have h3 : countWholeWord ("chess chess openings chess tactics") ("chess") = 3 := by
    decide
  have h5 : (tokensOf ("chess chess openings chess tactics")).length = 5 := by decide
  have he : (tokensOf ("chess chess openings chess tactics")).isEmpty = false := by
    decide
  rw [show calculate_keyword_density ("chess chess openings chess tactics") ("chess") =
    if (tokensOf ("chess chess openings chess tactics")).isEmpty then 0
    else ((countWholeWord ("chess chess openings chess tactics") ("chess") : ℚ) /
      ((tokensOf ("chess chess openings chess tactics")).length : ℚ)) from rfl]
  rw [he, h3, h5]
  norm_num

/-- C7 counterexample: for the multi-word keyword "chess openings" in the text
"chess openings are fun", the regex whole-word match count is 1, but the code's
`frequency` field (a unigram table lookup) is 0 — the claim fails for
multi-word keywords. -/
theorem claim7_counterexample :
    keyword_frequency ("chess openings are fun") ("") ("chess openings") = 0 ∧
    countWholeWord ("chess openings are fun" ++ " " ++ "") ("chess openings") = 1 ∧
    keyword_frequency ("chess openings are fun") ("") ("chess openings") ≠
      countWholeWord ("chess openings are fun" ++ " " ++ "") ("chess openings") := by
  exact ⟨by decide, by decide, by decide⟩

/-- C7 (amended): the `frequency` field equals the number of word tokens of the
lowercased `f"{title} {description}"` that equal the lowercased keyword — for a
single-word keyword this is the whole-word match count, but any keyword
containing a space (in particular every multi-word keyword) gets frequency 0. -/
theorem claim7_frequency_amended (title description target : String) :
    keyword_frequency title description target =
      (tokensOf (title ++ " " ++ description)).count (lowerChars target) ∧
    (' ' ∈ target.toList → keyword_frequency title description target = 0) := by
  refine ⟨rfl, fun hsp => ?_⟩
  have hsp' : ' ' ∈ lowerChars target := by
    unfold lowerChars
    exact List.mem_map.mpr ⟨' ', hsp, by decide⟩
  unfold keyword_frequency
  rw [List.count_eq_zero]
  intro hmem
  have h := (tokensOf_wordChars (title ++ " " ++ description) _ hmem).2 ' ' hsp'
  exact absurd h (by decide)

/-- C7 witness: the amended theorem applied to the keyword "a b", whose
frequency in the text body "x" is 0. -/
theorem claim7_witness : keyword_frequency ("x") ("") ("a b") = 0 :=
  (claim7_frequency_amended ("x") ("") ("a b")).2 (by decide)

/-- C8: the SEO total score is the sum of the four sub-scores; the title and
description sub-scores are capped at 30, the tag and hashtag sub-scores equal
`min(2 * count, 20)`, and the total never exceeds 100. -/
theorem claim8_seo_score (title description : String) (tags hashtags : List String) :
    (calculate_seo_score title description tags hashtags).total_score =
      (calculate_seo_score title description tags hashtags).title_score +
      (calculate_seo_score title description tags hashtags).description_score +
      (calculate_seo_score title description tags hashtags).tags_score +
      (calculate_seo_score title description tags hashtags).hashtags_score ∧
    (calculate_seo_score title description tags hashtags).title_score ≤ 30 ∧
    (calculate_seo_score title description tags hashtags).description_score ≤ 30 ∧
    (calculate_seo_score title description tags hashtags).tags_score =
      min (2 * tags.length) 20 ∧
    (calculate_seo_score title description tags hashtags).tags_score ≤ 20 ∧
    (calculate_seo_score title description tags hashtags).hashtags_score =
      min (2 * hashtags.length) 20 ∧
    (calculate_seo_score title description tags hashtags).hashtags_score ≤ 20 ∧
    (calculate_seo_score title description tags hashtags).total_score ≤ 100 := by
  have ht := title_points_le title
  have hd := desc_points_le description
  have htag : min (tags.length * 2) 20 ≤ 20 := min_le_right _ _
  have hhash : min (hashtags.length * 2) 20 ≤ 20 := min_le_right _ _
  refine ⟨rfl, ht, hd, ?_, htag, ?_, hhash, ?_⟩
  · show min (tags.length * 2) 20 = min (2 * tags.length) 20
    omega
  · show min (hashtags.length * 2) 20 = min (2 * hashtags.length) 20
    omega
  · show title_points title + desc_points description + min (tags.length * 2) 20 +
      min (hashtags.length * 2) 20 ≤ 100
    omega

/-- C9 counterexample: an input meeting every re-checked tip threshold but
missing the magnifier glyph (an unmet scoring condition worth 5 points:
description score 25 of 30) produces an empty tip list — the code does not
re-check each scoring threshold. -/
theorem claim9_counterexample :
    generate_optimization_tips tipsTitleEx tipsDescEx tipsTagsEx tipsHashtagsEx = [] ∧
    containsSub tipsDescEx ("🔍") = false ∧
    (calculate_seo_score tipsTitleEx tipsDescEx tipsTagsEx
      tipsHashtagsEx).description_score = 25 := by
  exact ⟨by decide, by decide, by decide⟩

/-- C9 (amended): the optimization tips are a pure deterministic function of
the same four scoring inputs, but re-check only a subset of the scoring
thresholds — title length below/above `[30, 60]`, description length below 200,
a missing clock glyph, a missing "Subscribe", fewer than 10 tags, fewer than 5
hashtags — emitting exactly one fixed remediation string per unmet re-checked
condition and none otherwise; the `#`, `?`, digit, magnifier and books scoring
conditions yield no tips. -/
theorem claim9_tips_amended (title description : String)
    (tags hashtags : List String) (s : String) :
    s ∈ generate_optimization_tips title description tags hashtags ↔
      ((s = "Consider making the title longer (30-60 characters)" ∧
          title.length < 30) ∨
       (s = "Consider making the title shorter (30-60 characters)" ∧
          ¬ title.length < 30 ∧ 60 < title.length) ∨
       (s = "Add more content to the description (minimum 200 characters)" ∧
          description.length < 200) ∨
       (s = "Add timestamps to the description" ∧
          containsSub description ("⏰") = false) ∨
       (s = "Add a call-to-action to subscribe" ∧
          containsSub description ("Subscribe") = false) ∨
       (s = "Add more tags (aim for 10-15 tags)" ∧ tags.length < 10) ∨
       (s = "Add more hashtags (aim for 5-10 hashtags)" ∧ hashtags.length < 5)) := by
  unfold generate_optimization_tips
  split_ifs <;> simp [List.mem_append, *]

/-- C9 witness: the amended characterization applied at the empty input, where
the tag-count tip is emitted. -/
theorem claim9_witness :
    "Add more tags (aim for 10-15 tags)" ∈
      generate_optimization_tips ("") ("") [] [] :=
  (claim9_tips_amended ("") ("") [] [] ("Add more tags (aim for 10-15 tags)")).mpr
    (Or.inr (Or.inr (Or.inr (Or.inr (Or.inr (Or.inl ⟨rfl, by decide⟩))))))

/-- C10: for all inputs the generated tag list has no duplicates and at most 15
entries, the generated hashtag list has no duplicates and at most 10 entries,
and each is a sublist of its base-then-trending construction order (first
occurrences kept). -/
theorem claim10_tags_hashtags (keyword : String)
    (trending_tags video_tags trending_hashtags : List String) :
    (generate_tags keyword trending_tags video_tags).Nodup ∧
    (generate_tags keyword trending_tags video_tags).length ≤ 15 ∧
    List.Sublist (generate_tags keyword trending_tags video_tags)
      (baseTags keyword ++ trending_tags.take 10 ++ video_tags.take 5) ∧
    (generate_hashtags keyword trending_hashtags).Nodup ∧
    (generate_hashtags keyword trending_hashtags).length ≤ 10 ∧
    List.Sublist (generate_hashtags keyword trending_hashtags)
      (baseHashtags keyword ++ trending_hashtags.take 5) := by
  refine ⟨?_, ?_, ?_, ?_, ?_, ?_⟩
  · exact List.Nodup.sublist (List.take_sublist _ _) (dedupKeepFirst_nodup _)
  · exact List.length_take_le 15 (dedupKeepFirst
      (baseTags keyword ++ trending_tags.take 10 ++ video_tags.take 5))
  · exact (List.take_sublist _ _).trans (dedupKeepFirst_sublist _)
  · exact List.Nodup.sublist (List.take_sublist _ _) (dedupKeepFirst_nodup _)
  · exact List.length_take_le 10 (dedupKeepFirst
      (baseHashtags keyword ++ trending_hashtags.take 5))
  · exact (List.take_sublist _ _).trans (dedupKeepFirst_sublist _)

end YTSeo
